import Mathlib

/-!
Verification of the `secure-api` FastAPI service (`src/apps/api/app.py`).

The development shallowly embeds the parts of the program the claims are
about: the configuration parsing of `ALLOWED_HOSTS`, the route-label
derivation `route_label_from_request`, the instrumentation middleware
`metrics_middleware` (with the two Prometheus metric families modelled as
association-list stores), the HTTP handlers `live`, `ready`, `health`,
`echo` and the scrape handler `metrics`.

Python exceptions are modelled with `Except Unit`: a function that can let
an exception escape returns `Except Unit α`; a `try/except` is a `match` on
that value.  The two calls into the Prometheus client inside the
middleware's `finally` block (`LATENCY...observe` and `REQUESTS...inc`)
may themselves raise; which of them raises is injected through a
`MetricFaults` environment so that the swallowing behaviour of the inner
`try/except: pass` can be stated and proved.
-/

namespace SecureApi

/-- Configuration model of the pydantic `Settings` class: the four
environment-backed fields. -/
structure Settings where
  APP_NAME : String
  APP_VERSION : String
  ALLOWED_HOSTS : String
  METRICS_ENABLED : Bool
deriving DecidableEq, Repr

/-- Python whitespace characters removed by `str.strip()` (ASCII subset). -/
def isPyWs (c : Char) : Bool :=
  c = ' ' || c = '\t' || c = '\n' || c = '\r' || c = '\x0b' || c = '\x0c'

/-- Model of Python `str.strip()`: drop leading and trailing whitespace. -/
def pyStrip (s : String) : String :=
  ⟨((s.data.dropWhile isPyWs).reverse.dropWhile isPyWs).reverse⟩

/-- Helper for `pySplitComma`: accumulates the current piece (reversed). -/
def splitCommaAux : List Char → List Char → List String
  | [], acc => [⟨acc.reverse⟩]
  | c :: rest, acc =>
      if c = ',' then ⟨acc.reverse⟩ :: splitCommaAux rest []
      else splitCommaAux rest (c :: acc)

/-- Model of Python `s.split(",")`: split on every comma; the empty string
splits to `[""]`. -/
def pySplitComma (s : String) : List String :=
  splitCommaAux s.data []

/-- `allowed_hosts = [h.strip() for h in settings.ALLOWED_HOSTS.split(",") if h.strip()]`
(module level, `app.py` line 60). -/
def allowed_hosts (s : Settings) : List String :=
  ((pySplitComma s.ALLOWED_HOSTS).filter (fun h => pyStrip h ≠ "")).map pyStrip

/-- The host list handed to `TrustedHostMiddleware`:
`allowed_hosts or ["*"]` (`app.py` line 61). -/
def trusted_hosts (s : Settings) : List String :=
  if allowed_hosts s = [] then ["*"] else allowed_hosts s

/-- Response bodies: the handlers build either a JSON object with string
values or a plain-text payload (the metrics exposition). -/
inductive Body where
  | json : List (String × String) → Body
  | text : String → Body
deriving DecidableEq, Repr

/-- HTTP response model: status code, body, media type. -/
structure Response where
  status_code : Nat
  body : Body
  media_type : String
deriving DecidableEq, Repr

/-- `fastapi.responses.JSONResponse(fields, status_code=code)`. -/
def JSONResponse (fields : List (String × String)) (code : Nat) : Response :=
  { status_code := code, body := Body.json fields, media_type := "application/json" }

/-- `status.HTTP_500_INTERNAL_SERVER_ERROR`. -/
def HTTP_500_INTERNAL_SERVER_ERROR : Nat := 500

/-- `prometheus_client.CONTENT_TYPE_LATEST`. -/
def CONTENT_TYPE_LATEST : String := "text/plain; version=0.0.4; charset=utf-8"

/-- The two metric families of the program as explicit stores:
`REQUESTS` is the counter keyed by (route, method, code);
`LATENCY` is the histogram keyed by (route, method), kept here as the
pair (observation count, sum of durations). -/
structure MetricState where
  counters : List ((String × String × String) × Nat)
  histograms : List ((String × String) × (Nat × Nat))
deriving DecidableEq, Repr

/-- Increment the counter series for a key, creating it at 1 on first use
(prometheus_client `Counter.labels(...).inc()`). -/
def bumpCtr : List ((String × String × String) × Nat) → (String × String × String) →
    List ((String × String × String) × Nat)
  | [], k => [(k, 1)]
  | (k', v) :: rest, k =>
      if k' = k then (k', v + 1) :: rest else (k', v) :: bumpCtr rest k

/-- Read a counter series; an absent series reads as 0. -/
def getCtr : List ((String × String × String) × Nat) → (String × String × String) → Nat
  | [], _ => 0
  | (k', v) :: rest, k => if k' = k then v else getCtr rest k

/-- Append one observation to the histogram series for a key, creating it
on first use (prometheus_client `Histogram.labels(...).observe(d)`). -/
def bumpHist : List ((String × String) × (Nat × Nat)) → (String × String) → Nat →
    List ((String × String) × (Nat × Nat))
  | [], k, d => [(k, (1, d))]
  | (k', v) :: rest, k, d =>
      if k' = k then (k', (v.1 + 1, v.2 + d)) :: rest else (k', v) :: bumpHist rest k d

/-- Read a histogram series' observation count; absent reads as 0. -/
def getHistCount : List ((String × String) × (Nat × Nat)) → (String × String) → Nat
  | [], _ => 0
  | (k', v) :: rest, k => if k' = k then v.1 else getHistCount rest k

/-- `REQUESTS.labels(route, method, code).inc()` acting on the store. -/
def incrementRequest (m : MetricState) (route method code : String) : MetricState :=
  { m with counters := bumpCtr m.counters (route, method, code) }

/-- `LATENCY.labels(route, method).observe(duration)` acting on the store. -/
def observeLatency (m : MetricState) (route method : String) (duration : Nat) : MetricState :=
  { m with histograms := bumpHist m.histograms (route, method) duration }

/-- Total number of counter increments ever recorded (sum over all series). -/
def totalCtr (m : MetricState) : Nat :=
  (m.counters.map (fun e => e.2)).sum

/-- Total number of latency observations ever recorded (sum over all series). -/
def totalObs (m : MetricState) : Nat :=
  (m.histograms.map (fun e => e.2.1)).sum

/-- One exposition line for a counter series. -/
def renderCtrLine (e : (String × String × String) × Nat) : String :=
  "http_requests_total\x7broute=\"" ++ e.1.1 ++ "\",method=\"" ++ e.1.2.1 ++
    "\",code=\"" ++ e.1.2.2 ++ "\"\x7d " ++ toString e.2 ++ "\n"

/-- Two exposition lines for a histogram series (count and sum). -/
def renderHistLine (e : (String × String) × (Nat × Nat)) : String :=
  "http_request_latency_seconds_count\x7broute=\"" ++ e.1.1 ++ "\",method=\"" ++
    e.1.2 ++ "\"\x7d " ++ toString e.2.1 ++ "\n" ++
  "http_request_latency_seconds_sum\x7broute=\"" ++ e.1.1 ++ "\",method=\"" ++
    e.1.2 ++ "\"\x7d " ++ toString e.2.2 ++ "\n"

/-- Model of `prometheus_client.generate_latest()`: a deterministic text
snapshot of the registry, one line per counter series and two per
histogram series, in insertion order. -/
def generate_latest (m : MetricState) : String :=
  String.join (m.counters.map renderCtrLine) ++ String.join (m.histograms.map renderHistLine)

/-- Request model: the method, the raw URL path (`request.url.path`) and
the matched route's path template when dispatch has set `scope["route"]`
(`none` when the key is absent). -/
structure Request where
  method : String
  urlPath : String
  scopeRoute : Option String
deriving DecidableEq, Repr

/-- The body of the `try` in `route_label_from_request`:
`request.scope.get("route").path`.  When `scope.get("route")` is `None`
the attribute access raises (`AttributeError`), modelled as `.error ()`. -/
def scopeRoutePath (req : Request) : Except Unit String :=
  match req.scopeRoute with
  | some p => Except.ok p
  | none => Except.error ()

/-- `route_label_from_request` (`app.py` lines 85–94): try to read the
matched route's path template; on any exception fall back to
`request.url.path`.  The `Except` return type records whether an
exception can escape the function. -/
def route_label_from_request (req : Request) : Except Unit String :=
  match scopeRoutePath req with
  | Except.ok p => Except.ok p
  | Except.error _ => Except.ok req.urlPath

/-- `GET /live` handler. -/
def live (s : Settings) : Response :=
  JSONResponse [("status", "alive"), ("app", s.APP_NAME), ("version", s.APP_VERSION)] 200

/-- `GET /ready` handler (does not read the settings). -/
def ready (_s : Settings) : Response :=
  JSONResponse [("status", "ready")] 200

/-- `GET /health` handler (does not read the settings). -/
def health (_s : Settings) : Response :=
  JSONResponse [("status", "ok")] 200

/-- Request model for `/echo` (the pydantic `Echo` class). -/
structure Echo where
  message : String
deriving DecidableEq, Repr

/-- `POST /echo` handler (does not read the settings). -/
def echo (_s : Settings) (payload : Echo) : Response :=
  JSONResponse [("echo", payload.message)] 200

/-- Outcome of `await call_next(request)`: the inner handler either
returned a response or raised an exception. -/
inductive HandlerResult where
  | ok : Response → HandlerResult
  | exn : HandlerResult
deriving DecidableEq, Repr

/-- Fault environment for the metric-recording step: whether
`LATENCY...observe(...)` raises, and whether `REQUESTS...inc()` raises. -/
structure MetricFaults where
  latencyRaises : Bool
  counterRaises : Bool
deriving DecidableEq, Repr

/-- The normal environment: neither metric call raises. -/
def noFaults : MetricFaults := ⟨false, false⟩

/-- `metrics_middleware` (`app.py` lines 148–182).  The wall clock is
abstracted: `duration` is the value of `time.perf_counter() - start`
computed in the `finally` block.  Control flow of the source:
the route label is resolved before dispatch (an exception there would
propagate, hence the outer `match`); the `try` binds `code` from the
response and returns it; the `except Exception` branch sets `code = 500`
and substitutes the generic JSON error response; the `finally` block
observes latency then increments the counter inside a `try/except: pass`,
so a raise in `observe` skips `inc` and a raise in either is swallowed. -/
def metrics_middleware (env : MetricFaults) (req : Request) (handler : HandlerResult)
    (duration : Nat) (m : MetricState) : Except Unit (Response × MetricState) :=
  match route_label_from_request req with
  | Except.error e => Except.error e
  | Except.ok route_label =>
      let method := req.method
      let (code, response) :=
        match handler with
        | HandlerResult.ok r => (r.status_code, r)
        | HandlerResult.exn =>
            (HTTP_500_INTERNAL_SERVER_ERROR,
             JSONResponse [("detail", "Internal Server Error")] HTTP_500_INTERNAL_SERVER_ERROR)
      let recorded :=
        if env.latencyRaises then m
        else if env.counterRaises then observeLatency m route_label method duration
        else incrementRequest (observeLatency m route_label method duration)
               route_label method (toString code)
      Except.ok (response, recorded)

/-- Run the middleware over a sequence of requests, threading the metric
store.  Each request's effect on the store is a single atomic recording
step (the Prometheus client serialises increments), so any interleaving
of concurrent requests is some sequential order of these steps. -/
def runAll (env : MetricFaults) : List (Request × HandlerResult × Nat) → MetricState →
    Except Unit MetricState
  | [], m => Except.ok m
  | (r, h, d) :: rest, m =>
      match metrics_middleware env r h d m with
      | Except.error e => Except.error e
      | Except.ok (_, m') => runAll env rest m'

/-- `GET /metrics` handler (`app.py` lines 188–197): 404 JSON when
`METRICS_ENABLED` is false, otherwise the rendered registry snapshot with
the Prometheus exposition content type.  The registry is returned
untouched in both branches. -/
def metrics (s : Settings) (m : MetricState) : Response × MetricState :=
  if !s.METRICS_ENABLED then
    (JSONResponse [("detail", "metrics disabled")] 404, m)
  else
    ({ status_code := 200, body := Body.text (generate_latest m),
       media_type := CONTENT_TYPE_LATEST }, m)

/-- The status code recorded for a handler outcome (`code` in the
middleware: the response's status on success, 500 on an exception). -/
def codeOf : HandlerResult → Nat
  | HandlerResult.ok r => r.status_code
  | HandlerResult.exn => HTTP_500_INTERNAL_SERVER_ERROR

/-- The response the middleware returns for a handler outcome: the real
response on success, the substituted generic 500 on an exception. -/
def responseOf : HandlerResult → Response
  | HandlerResult.ok r => r
  | HandlerResult.exn =>
      JSONResponse [("detail", "Internal Server Error")] HTTP_500_INTERNAL_SERVER_ERROR

/-- The route label the middleware resolves (template if matched, raw
path otherwise); proved below to be what `route_label_from_request`
returns. -/
def routeLabelStr (req : Request) : String :=
  match req.scopeRoute with
  | some p => p
  | none => req.urlPath

/-! ## Helper lemmas -/

/-- `route_label_from_request` always returns normally, with the value
`routeLabelStr`. -/
theorem route_label_ok (req : Request) :
    route_label_from_request req = Except.ok (routeLabelStr req) := by
  cases hr : req.scopeRoute <;>
    simp [route_label_from_request, scopeRoutePath, routeLabelStr, hr]

/-- Closed form of the middleware: it always returns normally, with the
response determined by the handler outcome and the store updated by the
guarded recording step. -/
theorem metrics_middleware_eq (env : MetricFaults) (req : Request) (h : HandlerResult)
    (d : Nat) (m : MetricState) :
    metrics_middleware env req h d m =
      Except.ok (responseOf h,
        if env.latencyRaises then m
        else if env.counterRaises then observeLatency m (routeLabelStr req) req.method d
        else incrementRequest (observeLatency m (routeLabelStr req) req.method d)
               (routeLabelStr req) req.method (toString (codeOf h))) := by
  cases hr : req.scopeRoute <;> cases h <;>
    simp [metrics_middleware, route_label_from_request, scopeRoutePath, routeLabelStr,
      responseOf, codeOf, hr]

/-- Bumping a counter series raises its read value by exactly one. -/
theorem getCtr_bumpCtr (l : List ((String × String × String) × Nat))
    (k : String × String × String) :
    getCtr (bumpCtr l k) k = getCtr l k + 1 := by
  induction l with
  | nil => simp [bumpCtr, getCtr]
  | cons hd tl ih =>
      obtain ⟨k', v⟩ := hd
      by_cases hk : k' = k <;> simp [bumpCtr, getCtr, hk, ih]

/-- Bumping a counter series raises the total of all counters by one. -/
theorem sum_bumpCtr (l : List ((String × String × String) × Nat))
    (k : String × String × String) :
    ((bumpCtr l k).map (fun e => e.2)).sum = (l.map (fun e => e.2)).sum + 1 := by
  induction l with
  | nil => simp [bumpCtr]
  | cons hd tl ih =>
      obtain ⟨k', v⟩ := hd
      by_cases hk : k' = k <;> simp [bumpCtr, hk, ih] <;> omega

/-- An observation raises the series' observation count by exactly one. -/
theorem getHistCount_bumpHist (l : List ((String × String) × (Nat × Nat)))
    (k : String × String) (d : Nat) :
    getHistCount (bumpHist l k d) k = getHistCount l k + 1 := by
  induction l with
  | nil => simp [bumpHist, getHistCount]
  | cons hd tl ih =>
      obtain ⟨k', v⟩ := hd
      by_cases hk : k' = k <;> simp [bumpHist, getHistCount, hk, ih]

/-- An observation raises the total observation count by one. -/
theorem sum_bumpHist (l : List ((String × String) × (Nat × Nat)))
    (k : String × String) (d : Nat) :
    ((bumpHist l k d).map (fun e => e.2.1)).sum = (l.map (fun e => e.2.1)).sum + 1 := by
  induction l with
  | nil => simp [bumpHist]
  | cons hd tl ih =>
      obtain ⟨k', v⟩ := hd
      by_cases hk : k' = k <;> simp [bumpHist, hk, ih] <;> omega

/-- Stripping a string of pure whitespace yields the empty string. -/
theorem pyStrip_all_ws (s : String) (h : ∀ c ∈ s.data, isPyWs c = true) :
    pyStrip s = "" := by
  have h1 : s.data.dropWhile isPyWs = [] := List.dropWhile_eq_nil_iff.mpr h
  simp [pyStrip, h1]

/-- Every piece produced by `splitCommaAux` from comma/whitespace input
with a whitespace accumulator is pure whitespace. -/
theorem splitCommaAux_ws (l : List Char) (acc : List Char)
    (hl : ∀ c ∈ l, c = ',' ∨ isPyWs c = true) (hacc : ∀ c ∈ acc, isPyWs c = true) :
    ∀ piece ∈ splitCommaAux l acc, ∀ c ∈ piece.data, isPyWs c = true := by
  induction l generalizing acc with
  | nil =>
      intro piece hp c hc
      simp [splitCommaAux] at hp
      subst hp
      exact hacc c (List.mem_reverse.mp hc)
  | cons hd tl ih =>
      intro piece hp c hc
      by_cases hcomma : hd = ','
      · simp [splitCommaAux, hcomma] at hp
        rcases hp with hp | hp
        · subst hp
          exact hacc c (List.mem_reverse.mp hc)
        · exact ih [] (fun x hx => hl x (List.mem_cons_of_mem _ hx))
            (fun x hx => absurd hx (List.not_mem_nil x)) piece hp c hc
      · have hw : isPyWs hd = true := by
          rcases hl hd (List.mem_cons_self _ _) with h | h
          · exact absurd h hcomma
          · exact h
        simp [splitCommaAux, hcomma] at hp
        refine ih (hd :: acc) (fun x hx => hl x (List.mem_cons_of_mem _ hx)) ?_ piece hp c hc
        intro x hx
        rcases List.mem_cons.mp hx with hx | hx
        · exact hx ▸ hw
        · exact hacc x hx

/-! ## Claim theorems -/

/-- C1: for every inbound request handled by the instrumentation
middleware, whether the inner handler returns a response or raises,
exactly one counter increment and exactly one latency observation are
recorded for that request — the totals across all series each grow by
exactly one, never zero and never two. -/
theorem middleware_records_exactly_once (req : Request) (h : HandlerResult) (d : Nat)
    (m : MetricState) :
    ∃ resp m', metrics_middleware noFaults req h d m = Except.ok (resp, m') ∧
      totalCtr m' = totalCtr m + 1 ∧ totalObs m' = totalObs m + 1 := by
  refine ⟨responseOf h,
    incrementRequest (observeLatency m (routeLabelStr req) req.method d)
      (routeLabelStr req) req.method (toString (codeOf h)), ?_, ?_, ?_⟩
  · simpa [noFaults] using metrics_middleware_eq noFaults req h d m
  · simp [totalCtr, incrementRequest, observeLatency, sum_bumpCtr]
  · simp [totalObs, incrementRequest, observeLatency, sum_bumpHist]

/-- C2: when the handler raises, the middleware returns the substituted
500 response with JSON body detail = Internal Server Error, and the
request counter for (route label, method, "500") is incremented by one. -/
theorem unhandled_exception_yields_500 (req : Request) (d : Nat) (m : MetricState) :
    ∃ m', metrics_middleware noFaults req HandlerResult.exn d m =
        Except.ok (JSONResponse [("detail", "Internal Server Error")] 500, m') ∧
      getCtr m'.counters (routeLabelStr req, req.method, "500") =
        getCtr m.counters (routeLabelStr req, req.method, "500") + 1 := by
  refine ⟨incrementRequest (observeLatency m (routeLabelStr req) req.method d)
      (routeLabelStr req) req.method "500", ?_, ?_⟩
  · have heq := metrics_middleware_eq noFaults req HandlerResult.exn d m
    have hstr : toString (codeOf HandlerResult.exn) = "500" := rfl
    rw [heq, hstr]
    simp [noFaults, responseOf, HTTP_500_INTERNAL_SERVER_ERROR]
  · simp [incrementRequest, observeLatency, getCtr_bumpCtr]

/-- C3: the route label used for metrics is the matched route's path
template verbatim when one was matched during dispatch, and the raw
request path otherwise; the middleware records the latency observation
under exactly that label. -/
theorem route_label_prefers_template (req : Request) (p : String) (h : HandlerResult)
    (d : Nat) (m : MetricState) :
    route_label_from_request { req with scopeRoute := some p } = Except.ok p ∧
    route_label_from_request { req with scopeRoute := none } = Except.ok req.urlPath ∧
    ∃ resp m', metrics_middleware noFaults { req with scopeRoute := some p } h d m =
        Except.ok (resp, m') ∧
      getHistCount m'.histograms (p, req.method) =
        getHistCount m.histograms (p, req.method) + 1 := by
  refine ⟨rfl, rfl, responseOf h,
    incrementRequest (observeLatency m p req.method d) p req.method (toString (codeOf h)),
    ?_, ?_⟩
  · simpa [noFaults, routeLabelStr] using
      metrics_middleware_eq noFaults { req with scopeRoute := some p } h d m
  · simp [incrementRequest, observeLatency, getHistCount_bumpHist]

/-- C4: whatever faults the metric-recording step raises, the middleware
still returns normally with the request's response (the real one on
success, the substituted 500 on handler failure) — a metrics fault never
fails a request. -/
theorem metrics_fault_never_fails_request (env : MetricFaults) (req : Request)
    (h : HandlerResult) (d : Nat) (m : MetricState) :
    ∃ m', metrics_middleware env req h d m = Except.ok (responseOf h, m') :=
  ⟨_, metrics_middleware_eq env req h d m⟩

/-- C5: the route-label derivation never lets an exception escape, and a
failure to read the matched-route field falls back to the raw request
path. -/
theorem route_label_never_throws (req : Request) :
    (∃ s, route_label_from_request req = Except.ok s) ∧
    (scopeRoutePath req = Except.error () →
      route_label_from_request req = Except.ok req.urlPath) := by
  constructor
  · exact ⟨routeLabelStr req, route_label_ok req⟩
  · intro herr
    simp [route_label_from_request, herr]

/-- Witness for C5 at a concrete request with no matched route. -/
theorem route_label_never_throws_witness :
    (∃ s, route_label_from_request ⟨"GET", "/nonexistent", none⟩ = Except.ok s) ∧
    route_label_from_request ⟨"GET", "/nonexistent", none⟩ = Except.ok "/nonexistent" := by
  have h := route_label_never_throws ⟨"GET", "/nonexistent", none⟩
  exact ⟨h.1, h.2 rfl⟩

/-- C6: for every sequence of N requests that all resolve to the same
(route, method, code) label triple, after all are recorded the counter
for that triple has grown by exactly N — no lost updates.  Each request's
effect on the store is one atomic recording step, so any interleaving of
the N concurrent requests is some sequential order of these steps. -/
theorem concurrent_counter_no_lost_updates (t mm c : String)
    (reqs : List (Request × HandlerResult × Nat)) (m : MetricState)
    (hall : ∀ x ∈ reqs, route_label_from_request x.1 = Except.ok t ∧
        x.1.method = mm ∧ toString (codeOf x.2.1) = c) :
    ∃ m', runAll noFaults reqs m = Except.ok m' ∧
      getCtr m'.counters (t, mm, c) = getCtr m.counters (t, mm, c) + reqs.length := by
  induction reqs generalizing m with
  | nil => exact ⟨m, rfl, by simp⟩
  | cons x rest ih =>
      obtain ⟨r, h, d⟩ := x
      obtain ⟨h1, h2, h3⟩ := hall _ (List.mem_cons_self _ _)
      have hlab : routeLabelStr r = t := by
        have h0 := route_label_ok r
        rw [h0] at h1
        exact Except.ok.inj h1
      obtain ⟨m', hrun, hctr⟩ := ih (incrementRequest (observeLatency m t mm d) t mm c)
        (fun y hy => hall y (List.mem_cons_of_mem _ hy))
      have h2' : r.method = mm := h2
      have h3' : toString (codeOf h) = c := h3
      have heq : metrics_middleware noFaults r h d m =
          Except.ok (responseOf h, incrementRequest (observeLatency m t mm d) t mm c) := by
        rw [metrics_middleware_eq]
        simp [noFaults, hlab, h2', h3']
      refine ⟨m', ?_, ?_⟩
      · simp [runAll, heq, hrun]
      · have hone : getCtr (incrementRequest (observeLatency m t mm d) t mm c).counters
            (t, mm, c) = getCtr m.counters (t, mm, c) + 1 := by
          simp [incrementRequest, observeLatency, getCtr_bumpCtr]
        rw [hctr, hone, List.length_cons]
        omega

/-- Witness for C6: three successful POST requests to the `/echo`
template all land on the counter series (/echo, POST, 200), which ends
at 3. -/
theorem concurrent_counter_no_lost_updates_witness :
    ∃ m', runAll noFaults
        [(⟨"POST", "/echo", some "/echo"⟩,
            HandlerResult.ok ⟨200, Body.json [("echo", "hi")], "application/json"⟩, 1),
         (⟨"POST", "/echo", some "/echo"⟩,
            HandlerResult.ok ⟨200, Body.json [("echo", "yo")], "application/json"⟩, 2),
         (⟨"POST", "/echo", some "/echo"⟩,
            HandlerResult.ok ⟨200, Body.json [("echo", "hi")], "application/json"⟩, 1)]
        ⟨[], []⟩ = Except.ok m' ∧
      getCtr m'.counters ("/echo", "POST", "200") =
        getCtr (MetricState.mk [] []).counters ("/echo", "POST", "200") + 3 := by
  have hall : ∀ x ∈ ([(⟨"POST", "/echo", some "/echo"⟩,
            HandlerResult.ok ⟨200, Body.json [("echo", "hi")], "application/json"⟩, 1),
         (⟨"POST", "/echo", some "/echo"⟩,
            HandlerResult.ok ⟨200, Body.json [("echo", "yo")], "application/json"⟩, 2),
         (⟨"POST", "/echo", some "/echo"⟩,
            HandlerResult.ok ⟨200, Body.json [("echo", "hi")], "application/json"⟩, 1)] :
          List (Request × HandlerResult × Nat)),
      route_label_from_request x.1 = Except.ok "/echo" ∧
        x.1.method = "POST" ∧ toString (codeOf x.2.1) = "200" := by
    intro x hx
    fin_cases hx <;> exact ⟨rfl, rfl, rfl⟩
  simpa using concurrent_counter_no_lost_updates "/echo" "POST" "200" _ ⟨[], []⟩ hall

/-- C7: the `/metrics` handler returns the 404 JSON response when metrics
are disabled and the rendered registry snapshot with the Prometheus
exposition content type when enabled, leaving the registry untouched in
both branches. -/
theorem metrics_endpoint_gated (s : Settings) (m : MetricState) :
    metrics { s with METRICS_ENABLED := false } m =
      (JSONResponse [("detail", "metrics disabled")] 404, m) ∧
    metrics { s with METRICS_ENABLED := true } m =
      ({ status_code := 200, body := Body.text (generate_latest m),
         media_type := CONTENT_TYPE_LATEST }, m) :=
  ⟨rfl, rfl⟩

/-- C8: the METRICS_ENABLED setting does not influence `/live`, `/ready`,
`/health` or `/echo` — two runs differing only in that flag produce
identical responses — while `/metrics` returns 404 when it is disabled. -/
theorem metrics_flag_noninterference (s : Settings) (b₁ b₂ : Bool) (p : Echo)
    (m : MetricState) :
    live { s with METRICS_ENABLED := b₁ } = live { s with METRICS_ENABLED := b₂ } ∧
    ready { s with METRICS_ENABLED := b₁ } = ready { s with METRICS_ENABLED := b₂ } ∧
    health { s with METRICS_ENABLED := b₁ } = health { s with METRICS_ENABLED := b₂ } ∧
    echo { s with METRICS_ENABLED := b₁ } p = echo { s with METRICS_ENABLED := b₂ } p ∧
    (metrics { s with METRICS_ENABLED := false } m).1.status_code = 404 :=
  ⟨rfl, rfl, rfl, rfl, rfl⟩

/-- C9: in the guarded recording block, the latency observation runs
before the counter increment: when the observation raises, nothing at all
is recorded (the store is unchanged); when only the increment raises, the
observation alone is recorded.  The response is returned either way. -/
theorem latency_fault_skips_counter (b : Bool) (req : Request) (h : HandlerResult)
    (d : Nat) (m : MetricState) :
    metrics_middleware ⟨true, b⟩ req h d m = Except.ok (responseOf h, m) ∧
    metrics_middleware ⟨false, true⟩ req h d m =
      Except.ok (responseOf h, observeLatency m (routeLabelStr req) req.method d) := by
  constructor
  · simpa using metrics_middleware_eq ⟨true, b⟩ req h d m
  · simpa using metrics_middleware_eq ⟨false, true⟩ req h d m

/-- C10: when ALLOWED_HOSTS contains only commas and whitespace, it
parses to the empty host list and the trusted-host filter is configured
with the wildcard. -/
theorem empty_allowed_hosts_wildcard (s : Settings)
    (hws : ∀ c ∈ s.ALLOWED_HOSTS.data, c = ',' ∨ isPyWs c = true) :
    allowed_hosts s = [] ∧ trusted_hosts s = ["*"] := by
  have hpieces := splitCommaAux_ws s.ALLOWED_HOSTS.data [] hws
    (fun x hx => absurd hx (List.not_mem_nil x))
  have hempty : allowed_hosts s = [] := by
    have hf : (pySplitComma s.ALLOWED_HOSTS).filter (fun h => pyStrip h ≠ "") = [] := by
      rw [List.filter_eq_nil_iff]
      intro a ha
      have hs : pyStrip a = "" := pyStrip_all_ws a (hpieces a ha)
      simp [hs]
    unfold allowed_hosts
    rw [hf, List.map_nil]
  exact ⟨hempty, by simp [trusted_hosts, hempty]⟩

/-- Witness for C10 at the concrete configuration string " ,\t,,". -/
theorem empty_allowed_hosts_wildcard_witness :
    allowed_hosts ⟨"secure-api", "1.0.0", " ,\t,,", true⟩ = [] ∧
    trusted_hosts ⟨"secure-api", "1.0.0", " ,\t,,", true⟩ = ["*"] :=
  empty_allowed_hosts_wildcard ⟨"secure-api", "1.0.0", " ,\t,,", true⟩ (by decide)

end SecureApi
